import Mathlib

/-!
Verification of the quarterly retirement manager
(`quarterly_review.py`, `momentum.py`, `run_quarterly.py`).

Money amounts, rates and thresholds are embedded as exact rationals (`ℚ`);
Python's float arithmetic is modelled in exact arithmetic.  Operations that can
raise in Python (division by a zero `total_value`, indexing an empty price
series) return `Option`, with `none` marking the raised exception.  The
inflation tracker uses a real fourth root, so it is embedded over `ℝ`.
-/

/-- Embeds the `RetirementConfig` dataclass of `quarterly_review.py`,
with the dataclass's default values. -/
structure RetirementConfig where
  initial_portfolio_value : ℚ := 1000000
  equity_target : ℚ := 0.85
  bond_target : ℚ := 0.15
  base_withdrawal_rate : ℚ := 0.05
  inflation_rate : ℚ := 0.03
  prosperity_threshold : ℚ := 1.20
  prosperity_increase : ℚ := 0.10
  capital_preservation_threshold : ℚ := 0.80
  capital_preservation_decrease : ℚ := 0.10
  max_withdrawal_rate : ℚ := 0.06
  min_withdrawal_rate : ℚ := 0.025
  signal_strength_threshold : ℚ := 0.30
  audit_log_path : String := "retirement_audit.jsonl"

/-- Embeds the `PortfolioState` dataclass, parametrised by the number type
(`ℚ` for the rule engine and executor, `ℝ` for the inflation tracker). -/
structure PortfolioState (α : Type) where
  equity_value : α
  bond_value : α
  quarter : String
  cumulative_inflation : α

/-- `PortfolioState.total_value` property: `equity_value + bond_value`. -/
def PortfolioState.total_value {α : Type} [Add α] (p : PortfolioState α) : α :=
  p.equity_value + p.bond_value

/-- `PortfolioState.equity_pct` property:
`self.equity_value / self.total_value if self.total_value else 0.0`. -/
def PortfolioState.equity_pct (p : PortfolioState ℚ) : ℚ :=
  if p.total_value ≠ 0 then p.equity_value / p.total_value else 0

/-- `PortfolioState.bond_pct` property:
`self.bond_value / self.total_value if self.total_value else 0.0`. -/
def PortfolioState.bond_pct (p : PortfolioState ℚ) : ℚ :=
  if p.total_value ≠ 0 then p.bond_value / p.total_value else 0

/-- `decide_withdrawal_source` of `quarterly_review.py` (Step 1). -/
def decide_withdrawal_source (signal strength : ℚ) (config : RetirementConfig) :
    String :=
  if strength < config.signal_strength_threshold then "proportional"
  else if signal > 0 then "equity" else "bond"

/-- The prosperity / capital-preservation part of `compute_gk_withdrawal`
(lines 127-148): returns the updated annual withdrawal and the rule label.
`none` models the `ZeroDivisionError` Python raises when a rate check divides
by a zero `total_value`. -/
def gk_rules_step (portfolio : PortfolioState ℚ) (current_annual_withdrawal : ℚ)
    (config : RetirementConfig) : Option (ℚ × String) :=
  let inflation_adj_baseline :=
    config.initial_portfolio_value * portfolio.cumulative_inflation
  if portfolio.total_value > inflation_adj_baseline * config.prosperity_threshold then
    if portfolio.total_value = 0 then none
    else
      let proposed := current_annual_withdrawal * (1 + config.prosperity_increase)
      if proposed / portfolio.total_value ≤ config.max_withdrawal_rate then
        some (proposed, "prosperity")
      else
        some (current_annual_withdrawal, "none")
  else if portfolio.total_value < inflation_adj_baseline * config.capital_preservation_threshold then
    if portfolio.total_value = 0 then none
    else
      let proposed := current_annual_withdrawal * (1 - config.capital_preservation_decrease)
      if proposed / portfolio.total_value ≥ config.min_withdrawal_rate then
        some (proposed, "capital_preservation")
      else
        some (portfolio.total_value * config.min_withdrawal_rate, "floor")
  else
    some (current_annual_withdrawal, "none")

/-- The unconditional hard-ceiling check of `compute_gk_withdrawal`
(lines 150-156), applied to the outcome of the rules step.  The division
`current_annual_withdrawal / portfolio.total_value` is unguarded in the
source, so a zero `total_value` is a `ZeroDivisionError` (`none`). -/
def gk_ceiling_step (portfolio : PortfolioState ℚ) (config : RetirementConfig)
    (wr : ℚ × String) : Option (ℚ × ℚ × String) :=
  if portfolio.total_value = 0 then none
  else if wr.1 / portfolio.total_value > config.max_withdrawal_rate then
    some (portfolio.total_value * config.max_withdrawal_rate / 4,
          portfolio.total_value * config.max_withdrawal_rate, "ceiling")
  else
    some (wr.1 / 4, wr.1, wr.2)

/-- `compute_gk_withdrawal` of `quarterly_review.py` (Step 2): returns
`(quarterly_withdrawal, new_annual_withdrawal, rule_triggered)`, or `none`
when the Python code raises `ZeroDivisionError`. -/
def compute_gk_withdrawal (portfolio : PortfolioState ℚ)
    (current_annual_withdrawal : ℚ) (config : RetirementConfig) :
    Option (ℚ × ℚ × String) :=
  (gk_rules_step portfolio current_annual_withdrawal config).bind
    (gk_ceiling_step portfolio config)

/-- `execute_withdrawal` of `quarterly_review.py` (Step 3).  The proportional
branch mirrors the source's two in-place mutations in order: `equity_value` is
reduced first, and `bond_pct` is then re-computed from the already-mutated
state. -/
def execute_withdrawal (portfolio : PortfolioState ℚ) (amount : ℚ)
    (source : String) : PortfolioState ℚ :=
  if source = "equity" then
    if amount > portfolio.equity_value then
      { portfolio with
          equity_value := 0,
          bond_value := portfolio.bond_value - (amount - portfolio.equity_value) }
    else
      { portfolio with equity_value := portfolio.equity_value - amount }
  else if source = "bond" then
    if amount > portfolio.bond_value then
      { portfolio with
          bond_value := 0,
          equity_value := portfolio.equity_value - (amount - portfolio.bond_value) }
    else
      { portfolio with bond_value := portfolio.bond_value - amount }
  else
    let p1 := { portfolio with
                  equity_value := portfolio.equity_value - amount * portfolio.equity_pct }
    { p1 with bond_value := p1.bond_value - amount * p1.bond_pct }

/-- `MOMENTUM_HORIZONS` constant of `momentum.py`. -/
def MOMENTUM_HORIZONS : List ℕ := [8, 9, 10]

/-- `series.rolling(window=n).mean().iloc[-1]` for a monthly close series with
at least `n` observations and no missing values: the simple moving average of
the last `n` observations. -/
def sma_last (series : List ℚ) (n : ℕ) : ℚ :=
  (series.drop (series.length - n)).sum / n

/-- `series.iloc[-(n + 1)]`: the observation exactly `n` periods before the
latest one.  Only used under the guard `series.length > n`, so the default
value is never reached there. -/
def price_n_months_ago (series : List ℚ) (n : ℕ) : ℚ :=
  series.getD (series.length - (n + 1)) 0

/-- The two per-horizon signals of `compute_momentum_score` for one series:
`(bullish increment, total increment)` contributed by horizon `n`.  Method 1
(SMA crossover) counts only when `len(series) >= n`; method 2 (point-in-time)
only when `len(series) > n`.  (The `pd.notna` test on the SMA is vacuous here:
with a complete window over gap-free data the rolling mean is never NaN.) -/
def horizon_signals (series : List ℚ) (latest : ℚ) (n : ℕ) : ℕ × ℕ :=
  let m1 : ℕ × ℕ :=
    if n ≤ series.length then
      ((if latest > sma_last series n then 1 else 0), 1)
    else (0, 0)
  let m2 : ℕ × ℕ :=
    if n < series.length then
      ((if latest > price_n_months_ago series n then 1 else 0), 1)
    else (0, 0)
  (m1.1 + m2.1, m1.2 + m2.2)

/-- The tally one series contributes in `compute_momentum_score`'s outer loop.
`series.iloc[-1]` raises `IndexError` on an empty series, modelled as `none`. -/
def series_tally (series : List ℚ) : Option (ℕ × ℕ) :=
  match series.getLast? with
  | none => none
  | some latest =>
      some ((MOMENTUM_HORIZONS.map (horizon_signals series latest)).foldl
        (fun acc s => (acc.1 + s.1, acc.2 + s.2)) (0, 0))

/-- `compute_momentum_score` of `momentum.py`: returns
`(n_bullish, total_signals)` summed over all provided series, or `none` when
the Python code raises (some series is empty). -/
def compute_momentum_score (series_list : List (List ℚ)) : Option (ℕ × ℕ) :=
  series_list.foldl
    (fun acc series =>
      match acc, series_tally series with
      | some (b, t), some (b', t') => some (b + b', t + t')
      | _, _ => none)
    (some (0, 0))

/-- The scoring core of `get_momentum_signal` in `run_quarterly.py`, with the
two fetched monthly close series (`^SP500TR` adj close and the `^GSPC` alt
index) passed in as parameters: returns `(equity_signal, signal_strength)`.
`score = bullish / total if total else 0.5`. -/
def get_momentum_signal (adj alt_adj : List ℚ) : Option (ℚ × ℚ) :=
  match compute_momentum_score [adj, alt_adj] with
  | none => none
  | some (bullish, total) =>
      let score : ℚ := if total ≠ 0 then (bullish : ℚ) / (total : ℚ) else 0.5
      let equity_signal := score - 0.5
      some (equity_signal, |equity_signal| * 2)

/-- `apply_quarterly_inflation` of `quarterly_review.py`, over `ℝ` because the
quarterly factor is the real fourth root `(1 + annual) ** (1 / 4)`. -/
noncomputable def apply_quarterly_inflation (portfolio : PortfolioState ℝ)
    (annual_inflation : ℝ) : PortfolioState ℝ :=
  let quarterly_rate := (1 + annual_inflation) ^ ((1 : ℝ) / 4) - 1
  { portfolio with
      cumulative_inflation := portfolio.cumulative_inflation * (1 + quarterly_rate) }

/-! ## Helper lemmas -/

/-- Unfolding `execute_withdrawal` at source `"equity"`. -/
theorem execute_withdrawal_equity_def (p : PortfolioState ℚ) (amount : ℚ) :
    execute_withdrawal p amount "equity" =
      if amount > p.equity_value then
        { p with equity_value := 0,
                 bond_value := p.bond_value - (amount - p.equity_value) }
      else
        { p with equity_value := p.equity_value - amount } := rfl

/-- Unfolding `execute_withdrawal` at source `"bond"`. -/
theorem execute_withdrawal_bond_def (p : PortfolioState ℚ) (amount : ℚ) :
    execute_withdrawal p amount "bond" =
      if amount > p.bond_value then
        { p with bond_value := 0,
                 equity_value := p.equity_value - (amount - p.bond_value) }
      else
        { p with bond_value := p.bond_value - amount } := rfl

/-! ## Claim theorems -/

/-- C7: withdrawing a non-negative `amount` from source `"equity"` subtracts
`amount` from `equity_value` when `amount ≤ equity_value` (bonds untouched),
and otherwise zeroes equity and subtracts the overflow
`amount − equity_value` from `bond_value`, without clamping bonds at zero. -/
theorem execute_withdrawal_equity_spec (p : PortfolioState ℚ) (amount : ℚ)
    (hamt : 0 ≤ amount) :
    (amount ≤ p.equity_value →
      execute_withdrawal p amount "equity" =
        { p with equity_value := p.equity_value - amount })
    ∧ (p.equity_value < amount →
      execute_withdrawal p amount "equity" =
        { p with equity_value := 0,
                 bond_value := p.bond_value - (amount - p.equity_value) }) := by
  rw [execute_withdrawal_equity_def]
  constructor
  · intro hle
    rw [if_neg (not_lt.mpr hle)]
  · intro hlt
    rw [if_pos hlt]

/-- C7 witness: Scenario D — `equity_value = 0`, `amount = 10000` from source
`"equity"` leaves equity at 0 and takes the full 10000 from bonds. -/
theorem execute_withdrawal_equity_spec_witness :
    execute_withdrawal ⟨0, 50000, "2026-Q1", 1⟩ 10000 "equity" =
      ⟨0, 40000, "2026-Q1", 1⟩ := by
  have h :=
    (execute_withdrawal_equity_spec ⟨0, 50000, "2026-Q1", 1⟩ 10000 (by norm_num)).2
      (by norm_num)
  rw [h]
  norm_num [PortfolioState.mk.injEq]

/-- C10: with source `"equity"` or `"bond"`, a withdrawal of a non-negative
`amount` decreases `total_value` by exactly `amount` (even in the overflow
case), and leaves `quarter` and `cumulative_inflation` unchanged. -/
theorem execute_withdrawal_directed_total (p : PortfolioState ℚ) (amount : ℚ)
    (hamt : 0 ≤ amount) (source : String)
    (hs : source = "equity" ∨ source = "bond") :
    (execute_withdrawal p amount source).total_value = p.total_value - amount
    ∧ (execute_withdrawal p amount source).quarter = p.quarter
    ∧ (execute_withdrawal p amount source).cumulative_inflation =
        p.cumulative_inflation := by
  rcases hs with rfl | rfl
  · rw [execute_withdrawal_equity_def]
    by_cases hlt : amount > p.equity_value
    · rw [if_pos hlt]
      refine ⟨?_, rfl, rfl⟩
      simp only [PortfolioState.total_value]
      ring
    · rw [if_neg hlt]
      refine ⟨?_, rfl, rfl⟩
      simp only [PortfolioState.total_value]
      ring
  · rw [execute_withdrawal_bond_def]
    by_cases hlt : amount > p.bond_value
    · rw [if_pos hlt]
      refine ⟨?_, rfl, rfl⟩
      simp only [PortfolioState.total_value]
      ring
    · rw [if_neg hlt]
      refine ⟨?_, rfl, rfl⟩
      simp only [PortfolioState.total_value]
      ring

/-- C10 witness: a 12500 equity-sourced withdrawal from an 850000/150000
portfolio leaves total value 987500 and the quarter label and inflation
tracker unchanged. -/
theorem execute_withdrawal_directed_total_witness :
    (execute_withdrawal ⟨850000, 150000, "2026-Q1", 1⟩ 12500 "equity").total_value
        = 987500
    ∧ (execute_withdrawal ⟨850000, 150000, "2026-Q1", 1⟩ 12500 "equity").quarter
        = "2026-Q1"
    ∧ (execute_withdrawal ⟨850000, 150000, "2026-Q1", 1⟩ 12500 "equity").cumulative_inflation
        = 1 := by
  have h := execute_withdrawal_directed_total ⟨850000, 150000, "2026-Q1", 1⟩ 12500
    (by norm_num) "equity" (Or.inl rfl)
  refine ⟨?_, h.2.1, h.2.2⟩
  rw [h.1]
  norm_num [PortfolioState.total_value]

/-- C8: `decide_withdrawal_source` returns `"proportional"` exactly when
`strength < signal_strength_threshold`; otherwise it returns `"equity"` for a
positive signal and `"bond"` otherwise (so a zero signal with a strong-enough
strength maps to `"bond"`); and with a positive threshold, strength 0 always
yields `"proportional"`. -/
theorem decide_withdrawal_source_spec (signal strength : ℚ)
    (config : RetirementConfig) :
    (decide_withdrawal_source signal strength config = "proportional" ↔
      strength < config.signal_strength_threshold)
    ∧ (¬ strength < config.signal_strength_threshold →
        decide_withdrawal_source signal strength config =
          if signal > 0 then "equity" else "bond")
    ∧ (¬ strength < config.signal_strength_threshold → signal = 0 →
        decide_withdrawal_source signal strength config = "bond")
    ∧ (0 < config.signal_strength_threshold →
        decide_withdrawal_source signal 0 config = "proportional") := by
  unfold decide_withdrawal_source
  refine ⟨⟨?_, ?_⟩, ?_, ?_, ?_⟩
  · intro h
    by_contra hns
    rw [if_neg hns] at h
    by_cases hsig : signal > 0
    · rw [if_pos hsig] at h
      exact absurd h (by decide)
    · rw [if_neg hsig] at h
      exact absurd h (by decide)
  · intro h
    rw [if_pos h]
  · intro h
    rw [if_neg h]
  · intro h h0
    rw [if_neg h, if_neg (by rw [h0]; exact lt_irrefl 0)]
  · intro h
    rw [if_pos h]

/-- C8 witness: with the default threshold 0.30, a strongly positive pair
(signal 1, strength 1) is directed to `"equity"`, a zero-strength pair is
`"proportional"` regardless of sign, and a zero signal at full strength is
`"bond"`. -/
theorem decide_withdrawal_source_spec_witness :
    decide_withdrawal_source 1 0 {} = "proportional"
    ∧ decide_withdrawal_source (-1) 0 {} = "proportional"
    ∧ decide_withdrawal_source 0 1 {} = "bond" := by
  refine ⟨?_, ?_, ?_⟩
  · exact (decide_withdrawal_source_spec 1 0 {}).2.2.2 (by norm_num)
  · exact (decide_withdrawal_source_spec (-1) 0 {}).2.2.2 (by norm_num)
  · exact (decide_withdrawal_source_spec 0 1 {}).2.2.1 (by norm_num) rfl

/-- C9: for any annual inflation rate above −100%, one quarterly advance
multiplies `cumulative_inflation` by the factor `(1 + annual) ^ (1/4)`
(multiplicative compounding), and a zero rate leaves the tracker unchanged;
the other fields are untouched. -/
theorem apply_quarterly_inflation_spec (p : PortfolioState ℝ)
    (annual_inflation : ℝ) (h : annual_inflation > -1) :
    (apply_quarterly_inflation p annual_inflation).cumulative_inflation =
      p.cumulative_inflation * (1 + annual_inflation) ^ ((1 : ℝ) / 4)
    ∧ (apply_quarterly_inflation p 0).cumulative_inflation =
        p.cumulative_inflation
    ∧ (apply_quarterly_inflation p annual_inflation).equity_value = p.equity_value
    ∧ (apply_quarterly_inflation p annual_inflation).bond_value = p.bond_value
    ∧ (apply_quarterly_inflation p annual_inflation).quarter = p.quarter := by
  refine ⟨?_, ?_, rfl, rfl, rfl⟩
  · simp only [apply_quarterly_inflation]
    ring
  · simp only [apply_quarterly_inflation, add_zero, Real.one_rpow]
    ring

/-- C9 witness: advancing a fresh tracker by a quarter at zero annual
inflation leaves it at 1. -/
theorem apply_quarterly_inflation_spec_witness :
    (apply_quarterly_inflation ⟨850000, 150000, "2026-Q1", 1⟩ 0).cumulative_inflation
      = (1 : ℝ) :=
  (apply_quarterly_inflation_spec ⟨850000, 150000, "2026-Q1", 1⟩ 0
    (by norm_num)).2.1

/-- C1: contrary to the spec's "the Rule Engine never raises", the rate-check
divisions in `compute_gk_withdrawal` are not guarded against a zero
`total_value` the way `equity_pct`/`bond_pct` are: on a portfolio whose total
value is zero the function raises `ZeroDivisionError` (modelled as `none`)
instead of returning a result. -/
theorem compute_gk_withdrawal_zero_total_raises :
    (⟨0, 0, "2026-Q1", 1⟩ : PortfolioState ℚ).total_value = 0
    ∧ compute_gk_withdrawal ⟨0, 0, "2026-Q1", 1⟩ 50000 {} = none := by
  constructor
  · norm_num [PortfolioState.total_value]
  · norm_num [compute_gk_withdrawal, gk_rules_step, gk_ceiling_step,
      PortfolioState.total_value]

/-- C2: the proportional branch of `execute_withdrawal` does not use
pre-withdrawal percentages for both legs: it mutates `equity_value` first and
then recomputes `bond_pct` from the mutated state.  From (equity 50, bond 50),
withdrawing 20 proportionally leaves bonds at 350/9 ≈ 38.89, not at the
50 − 20 × (50/100) = 40 the pre-withdrawal split prescribes. -/
theorem execute_withdrawal_proportional_mutation :
    execute_withdrawal ⟨50, 50, "2026-Q1", 1⟩ 20 "proportional" =
      ⟨40, 350 / 9, "2026-Q1", 1⟩
    ∧ (350 / 9 : ℚ) ≠ 50 - 20 * ((50 : ℚ) / (50 + 50)) := by
  constructor
  · norm_num [execute_withdrawal, PortfolioState.equity_pct,
      PortfolioState.bond_pct, PortfolioState.total_value]
    rfl
  · norm_num

/-- C4: when every supplied price series is too short for any momentum
horizon (here 3 < 8 periods, hence fewer than the 10-period minimum), the
scoring pipeline does not fail: `compute_momentum_score` returns the 0/0
tally and `get_momentum_signal` silently substitutes the neutral default
(score 0.5, i.e. `equity_signal = 0`, `signal_strength = 0`). -/
theorem momentum_short_history_silent_default :
    compute_momentum_score [[100, 101, 102], [100, 101, 102]] = some (0, 0)
    ∧ get_momentum_signal [100, 101, 102] [100, 101, 102] = some (0, 0) := by
  have h : compute_momentum_score [[100, 101, 102], [100, 101, 102]] =
      some (0, 0) := by decide
  refine ⟨h, ?_⟩
  simp only [get_momentum_signal, h]
  norm_num

/-- C3 (amended): if `total_value` equals the inflation-adjusted baseline
exactly, the baseline is positive, the prosperity threshold is ≥ 1, the
capital-preservation threshold is ≤ 1, and the current withdrawal rate does
not exceed the hard ceiling, then no rule fires and the withdrawal is
unchanged. -/
theorem gk_at_baseline_none (p : PortfolioState ℚ) (current : ℚ)
    (config : RetirementConfig)
    (hbase : p.total_value = config.initial_portfolio_value * p.cumulative_inflation)
    (hpos : 0 < p.total_value)
    (hpt : 1 ≤ config.prosperity_threshold)
    (hct : config.capital_preservation_threshold ≤ 1)
    (hmax : current / p.total_value ≤ config.max_withdrawal_rate) :
    compute_gk_withdrawal p current config =
      some (current / 4, current, "none") := by
  have h0 : p.total_value ≠ 0 := ne_of_gt hpos
  have hnp : ¬ p.total_value >
      p.total_value * config.prosperity_threshold := by
    refine not_lt.mpr ?_
    calc p.total_value = p.total_value * 1 := (mul_one _).symm
      _ ≤ p.total_value * config.prosperity_threshold :=
          mul_le_mul_of_nonneg_left hpt hpos.le
  have hnc : ¬ p.total_value <
      p.total_value * config.capital_preservation_threshold := by
    refine not_lt.mpr ?_
    calc p.total_value * config.capital_preservation_threshold
        ≤ p.total_value * 1 := mul_le_mul_of_nonneg_left hct hpos.le
      _ = p.total_value := mul_one _
  have hrules : gk_rules_step p current config = some (current, "none") := by
    simp only [gk_rules_step]
    rw [← hbase, if_neg hnp, if_neg hnc]
  have hceil : gk_ceiling_step p config (current, "none") =
      some (current / 4, current, "none") := by
    simp only [gk_ceiling_step]
    rw [if_neg h0, if_neg (not_lt.mpr hmax)]
  calc compute_gk_withdrawal p current config
      = (gk_rules_step p current config).bind (gk_ceiling_step p config) := rfl
    _ = gk_ceiling_step p config (current, "none") := by rw [hrules]; rfl
    _ = some (current / 4, current, "none") := hceil

/-- C3 witness: at a portfolio exactly on the $1,000,000 baseline with the
default config and a $50,000 current withdrawal, no rule fires and the
quarterly withdrawal is $12,500. -/
theorem gk_at_baseline_none_witness :
    compute_gk_withdrawal ⟨850000, 150000, "2026-Q1", 1⟩ 50000 {} =
      some (12500, 50000, "none") := by
  have h := gk_at_baseline_none ⟨850000, 150000, "2026-Q1", 1⟩ 50000 {}
    (by norm_num [PortfolioState.total_value])
    (by norm_num [PortfolioState.total_value])
    (by norm_num)
    (by norm_num)
    (by norm_num [PortfolioState.total_value])
  rw [h]
  norm_num

/-- C3 counterexample: the claim quantifies over every current withdrawal and
config, but at `total_value = baseline` exactly the independent hard-ceiling
check can still fire: with the default config and a $100,000 current
withdrawal (a 10% rate), the rule is `"ceiling"` and the withdrawal is capped
at $60,000, not left unchanged with rule `"none"`. -/
theorem gk_at_baseline_ceiling_cex :
    compute_gk_withdrawal ⟨850000, 150000, "2026-Q1", 1⟩ 100000 {} =
      some (15000, 60000, "ceiling")
    ∧ ¬ (compute_gk_withdrawal ⟨850000, 150000, "2026-Q1", 1⟩ 100000 {} =
          some (25000, 100000, "none")) := by
  have h : compute_gk_withdrawal ⟨850000, 150000, "2026-Q1", 1⟩ 100000 {} =
      some (15000, 60000, "ceiling") := by
    norm_num [compute_gk_withdrawal, gk_rules_step, gk_ceiling_step,
      PortfolioState.total_value]
  refine ⟨h, ?_⟩
  rw [h]
  norm_num

/-- C5 (amended): when the prosperity condition is false, the portfolio is
below the capital-preservation threshold and `total_value` is positive, the
10% cut is returned with rule `"capital_preservation"` provided the cut rate
lies between the floor and the ceiling; if the cut rate falls below the floor
(and the floor rate does not itself breach the ceiling), the withdrawal is
clamped to `total_value × min_withdrawal_rate` with rule `"floor"`. -/
theorem gk_capital_preservation_spec (p : PortfolioState ℚ) (current : ℚ)
    (config : RetirementConfig)
    (hpos : 0 < p.total_value)
    (hnp : ¬ p.total_value >
      config.initial_portfolio_value * p.cumulative_inflation *
        config.prosperity_threshold)
    (hcp : p.total_value <
      config.initial_portfolio_value * p.cumulative_inflation *
        config.capital_preservation_threshold) :
    (config.min_withdrawal_rate ≤
        current * (1 - config.capital_preservation_decrease) / p.total_value →
     current * (1 - config.capital_preservation_decrease) / p.total_value ≤
        config.max_withdrawal_rate →
      compute_gk_withdrawal p current config =
        some (current * (1 - config.capital_preservation_decrease) / 4,
              current * (1 - config.capital_preservation_decrease),
              "capital_preservation"))
    ∧ (current * (1 - config.capital_preservation_decrease) / p.total_value <
        config.min_withdrawal_rate →
       config.min_withdrawal_rate ≤ config.max_withdrawal_rate →
      compute_gk_withdrawal p current config =
        some (p.total_value * config.min_withdrawal_rate / 4,
              p.total_value * config.min_withdrawal_rate, "floor")) := by
  have h0 : p.total_value ≠ 0 := ne_of_gt hpos
  constructor
  · intro hmin hmax
    have hrules : gk_rules_step p current config =
        some (current * (1 - config.capital_preservation_decrease),
              "capital_preservation") := by
      simp only [gk_rules_step]
      rw [if_neg hnp, if_pos hcp, if_neg h0, if_pos hmin]
    have hceil : gk_ceiling_step p config
        (current * (1 - config.capital_preservation_decrease),
         "capital_preservation") =
        some (current * (1 - config.capital_preservation_decrease) / 4,
              current * (1 - config.capital_preservation_decrease),
              "capital_preservation") := by
      simp only [gk_ceiling_step]
      rw [if_neg h0, if_neg (not_lt.mpr hmax)]
    calc compute_gk_withdrawal p current config
        = (gk_rules_step p current config).bind (gk_ceiling_step p config) := rfl
      _ = gk_ceiling_step p config
            (current * (1 - config.capital_preservation_decrease),
             "capital_preservation") := by rw [hrules]; rfl
      _ = _ := hceil
  · intro hmin hminmax
    have hrules : gk_rules_step p current config =
        some (p.total_value * config.min_withdrawal_rate, "floor") := by
      simp only [gk_rules_step]
      rw [if_neg hnp, if_pos hcp, if_neg h0, if_neg (not_le.mpr hmin)]
    have hfloor_rate : p.total_value * config.min_withdrawal_rate /
        p.total_value = config.min_withdrawal_rate := by
      rw [mul_comm, mul_div_assoc, div_self h0, mul_one]
    have hceil : gk_ceiling_step p config
        (p.total_value * config.min_withdrawal_rate, "floor") =
        some (p.total_value * config.min_withdrawal_rate / 4,
              p.total_value * config.min_withdrawal_rate, "floor") := by
      simp only [gk_ceiling_step]
      rw [if_neg h0]
      rw [if_neg (by rw [hfloor_rate]; exact not_lt.mpr hminmax)]
    calc compute_gk_withdrawal p current config
        = (gk_rules_step p current config).bind (gk_ceiling_step p config) := rfl
      _ = gk_ceiling_step p config
            (p.total_value * config.min_withdrawal_rate, "floor") := by
          rw [hrules]; rfl
      _ = _ := hceil

/-- C5 witness: Scenario B — a $750,000 portfolio (equity $637,500 / bonds
$112,500) against the default $1,000,000 baseline with prior annual
withdrawal $50,000 yields exactly ($11,250 quarterly, $45,000 annual,
"capital_preservation"). -/
theorem gk_capital_preservation_spec_witness :
    compute_gk_withdrawal ⟨637500, 112500, "2026-Q2", 1⟩ 50000 {} =
      some (11250, 45000, "capital_preservation") := by
  have h := (gk_capital_preservation_spec ⟨637500, 112500, "2026-Q2", 1⟩ 50000 {}
    (by norm_num [PortfolioState.total_value])
    (by norm_num [PortfolioState.total_value])
    (by norm_num [PortfolioState.total_value])).1
    (by norm_num [PortfolioState.total_value])
    (by norm_num [PortfolioState.total_value])
  rw [h]
  norm_num

/-- C5 counterexample: the claim omits the unconditional ceiling override.
At an $100,000 portfolio against the default $1,000,000 baseline with a
$10,000 prior withdrawal, the 10% cut to $9,000 satisfies the floor check,
but its 9% rate breaches the 6% ceiling, so `compute_gk_withdrawal` returns
($1,500, $6,000, "ceiling") — not $9,000 with "capital_preservation". -/
theorem gk_capital_preservation_cex :
    compute_gk_withdrawal ⟨85000, 15000, "2026-Q1", 1⟩ 10000 {} =
      some (1500, 6000, "ceiling")
    ∧ ¬ (compute_gk_withdrawal ⟨85000, 15000, "2026-Q1", 1⟩ 10000 {} =
          some (2250, 9000, "capital_preservation")) := by
  have h : compute_gk_withdrawal ⟨85000, 15000, "2026-Q1", 1⟩ 10000 {} =
      some (1500, 6000, "ceiling") := by
    norm_num [compute_gk_withdrawal, gk_rules_step, gk_ceiling_step,
      PortfolioState.total_value]
  refine ⟨h, ?_⟩
  rw [h]
  norm_num

/-- C6 (amended): when the prosperity condition holds on a positive-total
portfolio, the raise is accepted (rule `"prosperity"`) exactly when the
raised rate stays within the ceiling; when the raise would breach the
ceiling, prosperity does not fire, and the withdrawal is returned unchanged
with rule `"none"` provided the unraised rate itself respects the ceiling
(otherwise the independent ceiling clamp rewrites it). -/
theorem gk_prosperity_spec (p : PortfolioState ℚ) (current : ℚ)
    (config : RetirementConfig)
    (hpos : 0 < p.total_value)
    (hp : p.total_value >
      config.initial_portfolio_value * p.cumulative_inflation *
        config.prosperity_threshold) :
    (current * (1 + config.prosperity_increase) / p.total_value ≤
        config.max_withdrawal_rate →
      compute_gk_withdrawal p current config =
        some (current * (1 + config.prosperity_increase) / 4,
              current * (1 + config.prosperity_increase), "prosperity"))
    ∧ (¬ current * (1 + config.prosperity_increase) / p.total_value ≤
        config.max_withdrawal_rate →
       current / p.total_value ≤ config.max_withdrawal_rate →
      compute_gk_withdrawal p current config =
        some (current / 4, current, "none")) := by
  have h0 : p.total_value ≠ 0 := ne_of_gt hpos
  constructor
  · intro hraise
    have hrules : gk_rules_step p current config =
        some (current * (1 + config.prosperity_increase), "prosperity") := by
      simp only [gk_rules_step]
      rw [if_pos hp, if_neg h0, if_pos hraise]
    have hceil : gk_ceiling_step p config
        (current * (1 + config.prosperity_increase), "prosperity") =
        some (current * (1 + config.prosperity_increase) / 4,
              current * (1 + config.prosperity_increase), "prosperity") := by
      simp only [gk_ceiling_step]
      rw [if_neg h0, if_neg (not_lt.mpr hraise)]
    calc compute_gk_withdrawal p current config
        = (gk_rules_step p current config).bind (gk_ceiling_step p config) := rfl
      _ = gk_ceiling_step p config
            (current * (1 + config.prosperity_increase), "prosperity") := by
          rw [hrules]; rfl
      _ = _ := hceil
  · intro hraise hcur
    have hrules : gk_rules_step p current config = some (current, "none") := by
      simp only [gk_rules_step]
      rw [if_pos hp, if_neg h0, if_neg hraise]
    have hceil : gk_ceiling_step p config (current, "none") =
        some (current / 4, current, "none") := by
      simp only [gk_ceiling_step]
      rw [if_neg h0, if_neg (not_lt.mpr hcur)]
    calc compute_gk_withdrawal p current config
        = (gk_rules_step p current config).bind (gk_ceiling_step p config) := rfl
      _ = gk_ceiling_step p config (current, "none") := by rw [hrules]; rfl
      _ = some (current / 4, current, "none") := hceil

/-- C6 witness: a $1,300,000 portfolio above the default 120% prosperity
threshold with a $50,000 withdrawal accepts the 10% raise: ($13,750
quarterly, $55,000 annual, "prosperity"). -/
theorem gk_prosperity_spec_witness :
    compute_gk_withdrawal ⟨1300000, 0, "2026-Q1", 1⟩ 50000 {} =
      some (13750, 55000, "prosperity") := by
  have h := (gk_prosperity_spec ⟨1300000, 0, "2026-Q1", 1⟩ 50000 {}
    (by norm_num [PortfolioState.total_value])
    (by norm_num [PortfolioState.total_value])).1
    (by norm_num [PortfolioState.total_value])
  rw [h]
  norm_num

/-- C6 counterexample: the claim says a rejected raise leaves the withdrawal
unchanged, but the unconditional ceiling can still rewrite it.  Against a
$500,000 baseline, a $1,000,000 portfolio with a $70,000 withdrawal rejects
the raise to $77,000 (7.7% > 6%), yet the ceiling then clamps the unchanged
$70,000 (7% > 6%) to $60,000 with rule "ceiling" — not a silent no-op. -/
theorem gk_prosperity_cex :
    compute_gk_withdrawal ⟨850000, 150000, "2026-Q1", 1⟩ 70000
        { initial_portfolio_value := 500000 } =
      some (15000, 60000, "ceiling")
    ∧ ¬ (compute_gk_withdrawal ⟨850000, 150000, "2026-Q1", 1⟩ 70000
          { initial_portfolio_value := 500000 } =
          some (17500, 70000, "none")) := by
  have h : compute_gk_withdrawal ⟨850000, 150000, "2026-Q1", 1⟩ 70000
      { initial_portfolio_value := 500000 } =
      some (15000, 60000, "ceiling") := by
    norm_num [compute_gk_withdrawal, gk_rules_step, gk_ceiling_step,
      PortfolioState.total_value]
  refine ⟨h, ?_⟩
  rw [h]
  norm_num
